import Mathlib

/-!
Verification of the RetroBox control plane: the WebSocket session registry /
message router (source: the main server file) and the native RetroArch process
orchestrator (source: native.ts).  The registry is modelled as association
lists mirroring the JS `Map` objects `screens` and `controllers`; the
orchestrator is modelled as a record of its module-level mutable variables,
with the OS-bound effects (filesystem probes, unzip, systemctl, spawn)
abstracted into an explicit environment record.
-/

namespace RetroBox

/-- States of the native orchestrator (`type NativeState` in native.ts). -/
inductive NState
  | idle
  | launching
  | running
  | stopping
deriving DecidableEq, Repr

/-- A live controller session: the value stored in the `controllers` map
(`controllerId -> { ws; screenId; playerNum }`); the `ws` handle is dropped,
identity is carried by the key. -/
structure CtrlSession where
  screenId : String
  playerNum : Int
deriving DecidableEq, Repr

/-- The `controllers` JS `Map`, as an association list in insertion order. -/
abbrev CtrlMap := List (String × CtrlSession)

/-- `controllers.get(k)`. -/
def mapGet (m : CtrlMap) (k : String) : Option CtrlSession :=
  (m.find? (fun e => e.1 == k)).map Prod.snd

/-- `controllers.set(k, v)`: JS `Map.set` updates an existing key in place
and otherwise appends at the end. -/
def mapSet (m : CtrlMap) (k : String) (v : CtrlSession) : CtrlMap :=
  if m.any (fun e => e.1 == k) then
    m.map (fun e => if e.1 == k then (k, v) else e)
  else
    m ++ [(k, v)]

/-- `controllers.delete(k)`. -/
def mapDelete (m : CtrlMap) (k : String) : CtrlMap :=
  m.filter (fun e => !(e.1 == k))

/-- The `screens` JS `Map`, reduced to the set of live screen ids. -/
abbrev ScreenSet := List String

/-- `screens.set(k, ws)` at the id level. -/
def screenSet (l : ScreenSet) (k : String) : ScreenSet :=
  if l.contains k then l else l ++ [k]

/-- `screens.delete(k)`. -/
def screenDelete (l : ScreenSet) (k : String) : ScreenSet :=
  l.filter (fun s => !(s == k))

/-- Joint registry state: the two module-level maps of the server. -/
structure SrvState where
  screens : ScreenSet
  controllers : CtrlMap
deriving DecidableEq, Repr

/-- Initial state: both maps empty. -/
def SrvState.empty : SrvState := ⟨[], []⟩

/-- The `requestedPlayerNum` field of a `register-controller` message:
absent, present but not a number, or a numeric value. -/
inductive ReqSlot
  | absent
  | nonNumber
  | num (n : Int)
deriving DecidableEq, Repr

/-- The guard `typeof requestedPlayerNum === 'number' && requestedPlayerNum >= 0
&& requestedPlayerNum < 4`: returns the requested slot when it passes. -/
def validSlot : ReqSlot → Option Int
  | .num n => if 0 ≤ n ∧ n < 4 then some n else none
  | _ => none

/-- The set of player numbers used by live controllers of a screen
(the `usedNumbers` set built by `getNextPlayerNumber`). -/
def usedSlots (m : CtrlMap) (screenId : String) : Finset Int :=
  ((m.filter (fun e => e.2.screenId == screenId)).map (fun e => e.2.playerNum)).toFinset

/-- `getNextPlayerNumber(screenId)`: lowest free number in 0..3, else the size
of the used-number set (overflow). -/
def getNextPlayerNumber (m : CtrlMap) (screenId : String) : Int :=
  let usedNumbers := usedSlots m screenId
  if (0 : Int) ∉ usedNumbers then 0
  else if (1 : Int) ∉ usedNumbers then 1
  else if (2 : Int) ∉ usedNumbers then 2
  else if (3 : Int) ∉ usedNumbers then 3
  else (usedNumbers.card : Int)

/-- Reply sent in response to a `register-controller` message. -/
inductive RegResult
  | missingFields
  | screenNotFound
  | slotTaken (requestedPlayer : Int)
  | registered (playerNum : Int)
deriving DecidableEq, Repr

/-- The `slotTaken` probe: some live controller of the screen holds slot `n`
under a different controller id. -/
def slotTakenBy (m : CtrlMap) (screenId : String) (n : Int) (controllerId : String) : Bool :=
  m.any (fun e => e.2.screenId == screenId && e.2.playerNum == n && !(e.1 == controllerId))

/-- The `register-controller` handler of the websocket `message` callback.
`nativeAvail` models `native !== null`; `nstate` is the orchestrator state, so
`nativeRunning = nativeAvail && nstate ≠ idle` as in the source. -/
def registerController (nativeAvail : Bool) (nstate : NState)
    (controllerId screenId : String) (req : ReqSlot) (s : SrvState) :
    RegResult × SrvState :=
  if controllerId = "" ∨ screenId = "" then (.missingFields, s)
  else if screenId ∉ s.screens ∧ ¬ (nativeAvail = true ∧ nstate ≠ .idle) then
    (.screenNotFound, s)
  else
    match validSlot req with
    | some n =>
      if slotTakenBy s.controllers screenId n controllerId then
        (.slotTaken (n + 1), s)
      else
        (.registered n, { s with controllers := mapSet s.controllers controllerId ⟨screenId, n⟩ })
    | none =>
      let p :=
        match mapGet s.controllers controllerId with
        | some c => if c.screenId = screenId then c.playerNum
                    else getNextPlayerNumber s.controllers screenId
        | none => getNextPlayerNumber s.controllers screenId
      (.registered p, { s with controllers := mapSet s.controllers controllerId ⟨screenId, p⟩ })

/-- The `register-screen` handler, at the id level (the old ws for a reused id
is closed and replaced; the id set is unchanged in that case). -/
def registerScreen (screenId : String) (s : SrvState) : SrvState :=
  if screenId = "" then s else { s with screens := screenSet s.screens screenId }

/-- The websocket `close` handler for a connection registered as a controller:
deletes the controller session (then broadcasts the recomputed player list). -/
def closeController (controllerId : String) (s : SrvState) : SrvState :=
  match mapGet s.controllers controllerId with
  | some _ => { s with controllers := mapDelete s.controllers controllerId }
  | none => s

/-- The websocket `close` handler for a connection registered as a screen. -/
def closeScreen (screenId : String) (s : SrvState) : SrvState :=
  { s with screens := screenDelete s.screens screenId }

/-- One registry-mutating event. -/
inductive Op
  | regScreen (screenId : String)
  | regCtrl (nativeAvail : Bool) (nstate : NState) (controllerId screenId : String) (req : ReqSlot)
  | closeCtrl (controllerId : String)
  | closeScr (screenId : String)
deriving DecidableEq, Repr

/-- Apply one event to the registry. -/
def step (s : SrvState) : Op → SrvState
  | .regScreen sid => registerScreen sid s
  | .regCtrl na ns cid sid req => (registerController na ns cid sid req s).2
  | .closeCtrl cid => closeController cid s
  | .closeScr sid => closeScreen sid s

/-- Run a sequence of events from the empty registry. -/
def run (ops : List Op) : SrvState := ops.foldl step SrvState.empty

/-- The `answer` payload of a `webrtc-answer` message: either a structurally
well-formed session description or anything else. -/
inductive AnswerPayload
  | sdp (ty sdp : String)
  | malformed
deriving DecidableEq, Repr

/-- Recipient of a message emitted by the router. -/
inductive Dest
  | toSender
  | toController (id : String)
deriving DecidableEq, Repr

/-- Message emitted by the `webrtc-answer` branch of the router. -/
inductive WireMsg
  | webrtcAnswer (answer : AnswerPayload)
  | errorReply (text : String)
deriving DecidableEq, Repr

/-- The `webrtc-answer` branch of the websocket `message` handler:
`const ctrl = controllers.get(msg.to); if (ctrl) ctrl.ws.send(...)`.
The sender's screen id (`wsData.id`) is in scope but never consulted. -/
def handleWebrtcAnswer (s : SrvState) (_senderScreenId : String) (target : String)
    (answer : AnswerPayload) : List (Dest × WireMsg) :=
  match mapGet s.controllers target with
  | some _ => [(.toController target, .webrtcAnswer answer)]
  | none => []

/-! ## Native orchestrator (native.ts) -/

/-- `NATIVE_CORE_MAP`: system id to core `.so` filename. -/
def NATIVE_CORE_MAP : List (String × String) :=
  [("n64", "mupen64plus_next_gles3_libretro.so"),
   ("snes", "snes9x_libretro.so"),
   ("gba", "mgba_libretro.so"),
   ("segaMD", "genesis_plus_gx_libretro.so"),
   ("arcade", "fbneo_libretro.so"),
   ("psx", "pcsx_rearmed_libretro.so")]

/-- Store path of the N64 GLES3 core (`GLES3_CORE`). -/
def GLES3_CORE : String :=
  "/nix/store/qgaqgc3zz7ivfjvbnzwa8scyg7vk83lf-libretro-mupen64plus-next-gles3-0-unstable-2025-11-14/lib/retroarch/cores/mupen64plus_next_gles3_libretro.so"

/-- Directory holding the standard cores (`CORES_DIR`). -/
def CORES_DIR : String :=
  "/nix/store/68hizy252msdd7br3jig3j3310ldmy13-retroarch-with-cores-1.21.0/lib/retroarch/cores"

/-- Scratch directory for ROM extraction (`EXTRACT_DIR`). -/
def EXTRACT_DIR : String := "/var/cache/kiosk-home/.cache/retroarch-extract"

/-- `NEEDS_EXTRACTION`: systems whose cores cannot load zipped content. -/
def NEEDS_EXTRACTION : List String := ["psx"]

/-- `CONTENT_EXTENSIONS`: ranked content extensions per system. -/
def CONTENT_EXTENSIONS : String → List String
  | "psx" => [".cue", ".bin", ".img", ".iso", ".pbp", ".chd"]
  | _ => []

/-- JS `String.prototype.toLowerCase`, as a reducible char-list map. -/
def strToLower (s : String) : String := String.mk (s.data.map Char.toLower)

/-- JS `String.prototype.endsWith`, as a reducible suffix test. -/
def strEndsWith (s suffix : String) : Bool := List.isSuffixOf suffix.data s.data

/-- `resolveCorePath(system)`. -/
def resolveCorePath (system : String) : Option String :=
  match (NATIVE_CORE_MAP.find? (fun e => e.1 == system)).map Prod.snd with
  | none => none
  | some coreName =>
    if system == "n64" then some GLES3_CORE else some (CORES_DIR ++ "/" ++ coreName)

/-- The orchestrator's module-level mutable state: `state`, `currentCore`,
`currentRom`, `cageProcess` (held handle or not), `exitCallback` (recorded or
not), and `extractedDir`. -/
structure NativeSt where
  state : NState
  currentCore : Option String
  currentRom : Option String
  cageProcess : Bool
  exitCallback : Bool
  extractedDir : Option String
deriving DecidableEq, Repr

/-- State at process start: `idle`, everything cleared. -/
def NativeSt.init : NativeSt := ⟨.idle, none, none, false, false, none⟩

/-- Outcomes of the OS-bound steps of one launch: filesystem probes
(`existsSync`), whether the mkdir/unzip/chmod commands succeed, the listing
of the extraction directory, which entries are directories (or fail to stat),
whether `stopKiosk` succeeds, and whether `spawn` returns without throwing. -/
structure LaunchEnv where
  fileExists : String → Bool
  unzipOk : Bool
  filesInDir : List String
  isDir : String → Bool
  stopKioskOk : Bool
  spawnOk : Bool
  now : Nat

/-- `cleanupExtraction()`: removes the recorded scratch directory (and stale
siblings) and nulls `extractedDir`. -/
def cleanupExtraction (st : NativeSt) : NativeSt := { st with extractedDir := none }

/-- `extractRom(system, zipPath)`: cleans up any previous extraction, unzips
into a fresh scratch directory, records it in `extractedDir`, then searches the
ranked extension list and falls back to the first non-directory entry.  On an
unzip error it cleans up and returns `none`; when nothing usable is found it
returns `none` with `extractedDir` still recorded. -/
def extractRom (env : LaunchEnv) (st : NativeSt) (system _zipPath : String) :
    NativeSt × Option String :=
  let st0 := cleanupExtraction st
  let dir := EXTRACT_DIR ++ "/" ++ system ++ "-" ++ toString env.now
  if ¬ env.unzipOk then (cleanupExtraction st0, none)
  else
    let st1 := { st0 with extractedDir := some dir }
    match (CONTENT_EXTENSIONS system).findSome?
        (fun ext => env.filesInDir.find? (fun f => strEndsWith (strToLower f) ext)) with
    | some f => (st1, some (dir ++ "/" ++ f))
    | none =>
      match env.filesInDir.find? (fun f => !env.isDir f) with
      | some f => (st1, some (dir ++ "/" ++ f))
      | none => (st1, none)

/-- Failure modes of `launchNative`, tagging its `{ok:false, error}` returns. -/
inductive LaunchErr
  | invalidState (st : NState)
  | coreNotFound
  | romNotFound
  | extractionFailed
  | kioskStopFailed
  | spawnFailed
deriving DecidableEq, Repr

/-- `launchNative(system, romPath, options)`: the synchronous state effects of
one call, up to its return.  `hasOnExit` records whether `options.onExit` was
provided.  Returns the new orchestrator state and `none` for `{ok:true}` or
the failure tag for `{ok:false}`. -/
def launchNative (env : LaunchEnv) (system romPath : String) (hasOnExit : Bool)
    (st : NativeSt) : NativeSt × Option LaunchErr :=
  if st.state ≠ .idle then (st, some (.invalidState st.state))
  else
    match resolveCorePath system with
    | none => (st, some .coreNotFound)
    | some corePath =>
      if ¬ env.fileExists corePath then (st, some .coreNotFound)
      else if ¬ env.fileExists romPath then (st, some .romNotFound)
      else
        let st1 := { st with state := .launching, currentCore := some system,
                             currentRom := some romPath, exitCallback := hasOnExit }
        let needsEx := NEEDS_EXTRACTION.contains system && strEndsWith (strToLower romPath) ".zip"
        let ex := if needsEx then extractRom env st1 system romPath else (st1, some romPath)
        match ex.2 with
        | none =>
          ({ ex.1 with state := .idle, currentCore := none, currentRom := none },
           some .extractionFailed)
        | some _actualRomPath =>
          if ¬ env.stopKioskOk then
            ({ ex.1 with state := .idle, currentCore := none, currentRom := none },
             some .kioskStopFailed)
          else if env.spawnOk then
            ({ ex.1 with cageProcess := true, state := .running }, none)
          else
            (cleanupExtraction { ex.1 with state := .idle, currentCore := none,
                                           currentRom := none },
             some .spawnFailed)

/-- The `cageProcess.on("exit", ...)` handler: resets state, cleans the scratch
directory, restarts the kiosk, then invokes and clears the recorded exit
callback.  Returns the new state and the notification delivered to the
callback (`(code, signal)`), if any. -/
def onCageExit (st : NativeSt) (code : Option Int) (signal : Option String) :
    NativeSt × Option (Option Int × Option String) :=
  let st1 := cleanupExtraction { st with state := .idle, cageProcess := false,
                                         currentCore := none, currentRom := none }
  if st.exitCallback then ({ st1 with exitCallback := false }, some (code, signal))
  else (st1, none)

/-- The `cageProcess.on("error", ...)` handler (spawn failure): resets state and
cleans the scratch directory but touches neither the exit callback nor delivers
any notification. -/
def onCageError (st : NativeSt) : NativeSt × Option (Option Int × Option String) :=
  (cleanupExtraction { st with state := .idle, cageProcess := false,
                               currentCore := none, currentRom := none }, none)

/-! ## Invariants and spec-side predicates -/

/-- The controller map has no duplicate controller ids (holds for JS `Map`). -/
def keysNodup (m : CtrlMap) : Prop := (m.map Prod.fst).Nodup

/-- No two distinct live controllers of one screen share a `playerNum` below
the overflow range: any shared value is at least 4. -/
def noLowCollision (m : CtrlMap) : Prop :=
  ∀ k1 k2 c1 c2, mapGet m k1 = some c1 → mapGet m k2 = some c2 → k1 ≠ k2 →
    c1.screenId = c2.screenId → c1.playerNum = c2.playerNum → 4 ≤ c1.playerNum

/-- Registry invariant carried through every operation. -/
def RegistryInv (s : SrvState) : Prop := keysNodup s.controllers ∧ noLowCollision s.controllers

/-- The spec's description of an auto-assigned slot: the lowest integer in
0..3 not used by the screen's live controllers, or — when all four are taken —
the size of the used-slot set. -/
def IsAutoAssign (m : CtrlMap) (sid : String) (p : Int) : Prop :=
  (0 ≤ p ∧ p < 4 ∧ p ∉ usedSlots m sid ∧ ∀ q : Int, 0 ≤ q → q < p → q ∈ usedSlots m sid)
  ∨ ((∀ q : Int, 0 ≤ q → q < 4 → q ∈ usedSlots m sid) ∧ p = ((usedSlots m sid).card : Int))

/-! ## Concrete scenarios used by witnesses and counterexamples -/

/-- Overflow collision scenario: four auto-registrations fill slots 0..3, two
more take overflow slots 4 and 5, the slot-4 controller disconnects, and a
seventh controller auto-registers. -/
def collisionOps : List Op :=
  [.regScreen "S",
   .regCtrl false .idle "C1" "S" .absent,
   .regCtrl false .idle "C2" "S" .absent,
   .regCtrl false .idle "C3" "S" .absent,
   .regCtrl false .idle "C4" "S" .absent,
   .regCtrl false .idle "C5" "S" .absent,
   .regCtrl false .idle "C6" "S" .absent,
   .closeCtrl "C5",
   .regCtrl false .idle "C7" "S" .absent]

/-- Reconnect scenario: a controller registers at requested slot 2, then
disconnects. -/
def reconnectSt : SrvState :=
  run [.regScreen "S1", .regCtrl false .idle "C1" "S1" (.num 2), .closeCtrl "C1"]

/-- One screen with one auto-registered controller (holding slot 0). -/
def oneCtrlSt : SrvState :=
  run [.regScreen "S1", .regCtrl false .idle "C1" "S1" .absent]

/-- Two screens, with controller `C1` registered against screen `S2`. -/
def twoScreenSt : SrvState :=
  run [.regScreen "S1", .regScreen "S2", .regCtrl false .idle "C1" "S2" .absent]

/-- Launch environment where every probe and external step succeeds and the
extraction directory would list no entries. -/
def envGood : LaunchEnv := ⟨fun _ => true, true, [], fun _ => false, true, true, 0⟩

/-- Launch environment where unzip succeeds but yields no usable content file. -/
def envNoContent : LaunchEnv := ⟨fun _ => true, true, [], fun _ => false, true, true, 7⟩

/-- Launch environment where spawning the cage process throws. -/
def envSpawnFail : LaunchEnv := ⟨fun _ => true, true, [], fun _ => false, true, false, 0⟩

/-- Orchestrator state after a successful launch of `snes` content with an
exit callback recorded. -/
def stAfterLaunch : NativeSt :=
  (launchNative envGood "snes" "/roms/a.sfc" true NativeSt.init).1

/-- One screen with two auto-registered controllers holding slots 0 and 1. -/
def twoCtrlSt : SrvState :=
  run [.regScreen "S1", .regCtrl false .idle "C1" "S1" .absent,
       .regCtrl false .idle "C2" "S1" .absent]

/-- Launch environment where the unzip command itself fails. -/
def envUnzipFail : LaunchEnv := ⟨fun _ => true, false, [], fun _ => false, true, true, 0⟩

/-! ## Map lemmas -/

theorem mapGet_nil (k : String) : mapGet [] k = none := rfl

theorem mapGet_cons (e : String × CtrlSession) (t : CtrlMap) (k : String) :
    mapGet (e :: t) k = if e.1 = k then some e.2 else mapGet t k := by
  by_cases h : e.1 = k
  · rw [mapGet, List.find?_cons_of_pos _ (by simpa using h), if_pos h]
    rfl
  · rw [mapGet, List.find?_cons_of_neg _ (by simpa using h), if_neg h]
    rfl

theorem mapGet_eq_some_mem {m : CtrlMap} {k : String} {c : CtrlSession}
    (h : mapGet m k = some c) : (k, c) ∈ m := by
  induction m with
  | nil => simp [mapGet_nil] at h
  | cons e t ih =>
    rw [mapGet_cons] at h
    by_cases h1 : e.1 = k
    · rw [if_pos h1] at h
      have he : e = (k, c) := by
        obtain ⟨k0, c0⟩ := e
        simp only at h1
        simp only [Option.some.injEq] at h
        rw [h1, h]
      simp [List.mem_cons, he]
    · rw [if_neg h1] at h
      exact List.mem_cons_of_mem _ (ih h)

theorem mapGet_isSome_iff (m : CtrlMap) (k : String) :
    (∃ c, mapGet m k = some c) ↔ m.any (fun e => e.1 == k) = true := by
  induction m with
  | nil => simp [mapGet_nil]
  | cons e t ih =>
    rw [List.any_cons, mapGet_cons]
    by_cases h1 : e.1 = k
    · simp [h1]
    · simp [h1, ih]

theorem mapGet_map_replace (m : CtrlMap) (k k' : String) (v : CtrlSession) :
    mapGet (m.map fun e => if e.1 == k then (k, v) else e) k' =
      if k' = k then (mapGet m k).map (fun _ => v) else mapGet m k' := by
  induction m with
  | nil => by_cases h2 : k' = k <;> simp [mapGet_nil, h2]
  | cons e t ih =>
    simp only [List.map_cons, mapGet_cons, beq_iff_eq] at ih ⊢
    by_cases h1 : e.1 = k
    · by_cases h2 : k' = k
      · simp [h1, h2]
      · have hkk' : ¬ k = k' := fun hh => h2 hh.symm
        have he1k' : ¬ e.1 = k' := h1 ▸ hkk'
        simp [h1, h2, hkk', he1k', ih]
    · by_cases h2 : k' = k
      · have he1k' : ¬ e.1 = k' := by rw [h2]; exact h1
        subst h2
        simp [h1, he1k', ih]
      · by_cases h3 : e.1 = k'
        · simp [h1, h2, h3]
        · simp [h1, h2, h3, ih]

theorem mapGet_mapSet (m : CtrlMap) (k k' : String) (v : CtrlSession) :
    mapGet (mapSet m k v) k' = if k' = k then some v else mapGet m k' := by
  unfold mapSet
  by_cases hany : m.any (fun e => e.1 == k) = true
  · rw [if_pos hany, mapGet_map_replace]
    by_cases hk : k' = k
    · obtain ⟨c, hc⟩ := (mapGet_isSome_iff m k).mpr hany
      simp [hk, hc]
    · simp [hk]
  · rw [if_neg hany]
    have hget : mapGet m k = none := by
      cases hg : mapGet m k with
      | none => rfl
      | some c => exact absurd ((mapGet_isSome_iff m k).mp ⟨c, hg⟩) hany
    clear hany
    induction m with
    | nil =>
      rw [List.nil_append, mapGet_cons, mapGet_nil]
      by_cases h2 : k' = k
      · rw [if_pos (show (k, v).1 = k' by simp [h2]), if_pos h2]
      · rw [if_neg (show ¬ (k, v).1 = k' from fun hh => h2 hh.symm), if_neg h2]
    | cons e t ih =>
      rw [mapGet_cons] at hget
      by_cases h1 : e.1 = k
      · rw [if_pos h1] at hget
        exact absurd hget (by simp)
      · rw [if_neg h1] at hget
        rw [List.cons_append, mapGet_cons, mapGet_cons]
        by_cases h3 : e.1 = k'
        · rw [if_pos h3, if_pos h3, if_neg (show ¬ k' = k from fun hh => h1 (hh ▸ h3))]
        · rw [if_neg h3, if_neg h3, ih hget]

theorem mapGet_mapDelete (m : CtrlMap) (k k' : String) :
    mapGet (mapDelete m k) k' = if k' = k then none else mapGet m k' := by
  induction m with
  | nil => by_cases h2 : k' = k <;> simp [mapDelete, mapGet_nil, h2]
  | cons e t ih =>
    unfold mapDelete at ih ⊢
    rw [List.filter_cons]
    by_cases h1 : e.1 = k
    · rw [if_neg (by simp [h1]), ih, mapGet_cons]
      by_cases h2 : k' = k
      · rw [if_pos h2, if_pos h2]
      · rw [if_neg h2, if_neg h2,
            if_neg (show ¬ e.1 = k' from by rw [h1]; exact fun hh => h2 hh.symm)]
    · rw [if_pos (by simp [h1]), mapGet_cons, mapGet_cons]
      by_cases h3 : e.1 = k'
      · rw [if_pos h3, if_pos h3,
            if_neg (show ¬ k' = k from fun hh => h1 (hh ▸ h3))]
      · rw [if_neg h3, if_neg h3, ih]

theorem keysNodup_mapSet {m : CtrlMap} (k : String) (v : CtrlSession)
    (h : keysNodup m) : keysNodup (mapSet m k v) := by
  unfold mapSet
  by_cases hany : m.any (fun e => e.1 == k) = true
  · rw [if_pos hany]
    unfold keysNodup at h ⊢
    have hkeys : (m.map (fun e => if e.1 == k then (k, v) else e)).map Prod.fst =
        m.map Prod.fst := by
      rw [List.map_map]
      apply List.map_congr_left
      intro e _
      by_cases h1 : e.1 = k <;> simp [h1]
    rw [hkeys]
    exact h
  · rw [if_neg hany]
    unfold keysNodup at h ⊢
    rw [List.map_append]
    rw [List.nodup_append]
    refine ⟨h, List.nodup_singleton k, ?_⟩
    intro a ha hb
    simp only [List.map_cons, List.map_nil, List.mem_singleton] at hb
    subst hb
    obtain ⟨e, he, hek⟩ := List.mem_map.mp ha
    exact hany (List.any_eq_true.mpr ⟨e, he, by simp [hek]⟩)

theorem keysNodup_mapDelete {m : CtrlMap} (k : String) (h : keysNodup m) :
    keysNodup (mapDelete m k) :=
  h.sublist ((List.filter_sublist m).map Prod.fst)

theorem mem_usedSlots {m : CtrlMap} {sid : String} {n : Int} :
    n ∈ usedSlots m sid ↔ ∃ e, e ∈ m ∧ (e : String × CtrlSession).2.screenId = sid ∧
      e.2.playerNum = n := by
  unfold usedSlots
  rw [List.mem_toFinset, List.mem_map]
  constructor
  · rintro ⟨e, he, hn⟩
    rw [List.mem_filter] at he
    exact ⟨e, he.1, by simpa using he.2, hn⟩
  · rintro ⟨e, he, hs, hn⟩
    exact ⟨e, List.mem_filter.mpr ⟨he, by simpa using hs⟩, hn⟩

theorem slotTakenBy_iff (m : CtrlMap) (sid : String) (n : Int) (cid : String) :
    slotTakenBy m sid n cid = true ↔
      ∃ e, e ∈ m ∧ (e : String × CtrlSession).2.screenId = sid ∧
        e.2.playerNum = n ∧ e.1 ≠ cid := by
  unfold slotTakenBy
  rw [List.any_eq_true]
  constructor
  · rintro ⟨e, he, hp⟩
    simp only [Bool.and_eq_true, beq_iff_eq, Bool.not_eq_true', beq_eq_false_iff_ne] at hp
    exact ⟨e, he, hp.1.1, hp.1.2, hp.2⟩
  · rintro ⟨e, he, hs, hn, hk⟩
    exact ⟨e, he, by simp [hs, hn, hk]⟩

theorem four_le_card_of_full {u : Finset Int} (h0 : (0 : Int) ∈ u) (h1 : (1 : Int) ∈ u)
    (h2 : (2 : Int) ∈ u) (h3 : (3 : Int) ∈ u) : 4 ≤ u.card := by
  have hsub : ({0, 1, 2, 3} : Finset Int) ⊆ u := by
    intro x hx
    simp only [Finset.mem_insert, Finset.mem_singleton] at hx
    rcases hx with rfl | rfl | rfl | rfl <;> assumption
  calc (4 : ℕ) = ({0, 1, 2, 3} : Finset Int).card := by decide
    _ ≤ u.card := Finset.card_le_card hsub

theorem getNextPlayerNumber_spec (m : CtrlMap) (sid : String) :
    IsAutoAssign m sid (getNextPlayerNumber m sid) := by
  unfold IsAutoAssign
  by_cases h0 : (0 : Int) ∈ usedSlots m sid
  · by_cases h1 : (1 : Int) ∈ usedSlots m sid
    · by_cases h2 : (2 : Int) ∈ usedSlots m sid
      · by_cases h3 : (3 : Int) ∈ usedSlots m sid
        · have heq : getNextPlayerNumber m sid = ((usedSlots m sid).card : Int) := by
            unfold getNextPlayerNumber
            simp [h0, h1, h2, h3]
          rw [heq]
          right
          refine ⟨?_, rfl⟩
          intro q hq0 hq4
          interval_cases q <;> assumption
        · have heq : getNextPlayerNumber m sid = 3 := by
            unfold getNextPlayerNumber
            simp [h0, h1, h2, h3]
          rw [heq]
          left
          refine ⟨by norm_num, by norm_num, h3, ?_⟩
          intro q hq0 hq3
          interval_cases q <;> assumption
      · have heq : getNextPlayerNumber m sid = 2 := by
          unfold getNextPlayerNumber
          simp [h0, h1, h2]
        rw [heq]
        left
        refine ⟨by norm_num, by norm_num, h2, ?_⟩
        intro q hq0 hq2
        interval_cases q <;> assumption
    · have heq : getNextPlayerNumber m sid = 1 := by
        unfold getNextPlayerNumber
        simp [h0, h1]
      rw [heq]
      left
      refine ⟨by norm_num, by norm_num, h1, ?_⟩
      intro q hq0 hq1
      interval_cases q
      assumption
  · have heq : getNextPlayerNumber m sid = 0 := by
      unfold getNextPlayerNumber
      simp [h0]
    rw [heq]
    left
    refine ⟨le_refl 0, by norm_num, h0, ?_⟩
    intro q hq0 hq
    omega

theorem getNextPlayerNumber_eq_of (m : CtrlMap) (sid : String) (p : Int)
    (hp0 : 0 ≤ p) (hp4 : p < 4) (hfree : p ∉ usedSlots m sid)
    (hlow : ∀ q : Int, 0 ≤ q → q < p → q ∈ usedSlots m sid) :
    getNextPlayerNumber m sid = p := by
  unfold getNextPlayerNumber
  interval_cases p
  · simp [hfree]
  · have h0 : (0 : Int) ∈ usedSlots m sid := hlow 0 (by norm_num) (by norm_num)
    simp [h0, hfree]
  · have h0 : (0 : Int) ∈ usedSlots m sid := hlow 0 (by norm_num) (by norm_num)
    have h1 : (1 : Int) ∈ usedSlots m sid := hlow 1 (by norm_num) (by norm_num)
    simp [h0, h1, hfree]
  · have h0 : (0 : Int) ∈ usedSlots m sid := hlow 0 (by norm_num) (by norm_num)
    have h1 : (1 : Int) ∈ usedSlots m sid := hlow 1 (by norm_num) (by norm_num)
    have h2 : (2 : Int) ∈ usedSlots m sid := hlow 2 (by norm_num) (by norm_num)
    simp [h0, h1, h2, hfree]

/-! ## Characterization of the register-controller step -/

theorem registerController_guard_pass (na : Bool) (ns : NState) (cid sid : String)
    (req : ReqSlot) (s : SrvState)
    (hcid : ¬ cid = "") (hsid : ¬ sid = "")
    (hscr : sid ∈ s.screens ∨ (na = true ∧ ns ≠ .idle)) :
    registerController na ns cid sid req s =
      (match validSlot req with
       | some n =>
         if slotTakenBy s.controllers sid n cid then (.slotTaken (n + 1), s)
         else (.registered n,
               { s with controllers := mapSet s.controllers cid ⟨sid, n⟩ })
       | none =>
         let p :=
           match mapGet s.controllers cid with
           | some c => if c.screenId = sid then c.playerNum
                       else getNextPlayerNumber s.controllers sid
           | none => getNextPlayerNumber s.controllers sid
         (.registered p,
          { s with controllers := mapSet s.controllers cid ⟨sid, p⟩ })) := by
  unfold registerController
  have hb1 : ¬ (cid = "" ∨ sid = "") := by
    rintro (h | h)
    exacts [hcid h, hsid h]
  have hb2 : ¬ (sid ∉ s.screens ∧ ¬ (na = true ∧ ns ≠ NState.idle)) := by
    rcases hscr with h | h
    · exact fun hc => hc.1 h
    · exact fun hc => hc.2 h
  rw [if_neg hb1, if_neg hb2]

theorem registerController_state_cases (na : Bool) (ns : NState) (cid sid : String)
    (req : ReqSlot) (s : SrvState) :
    (registerController na ns cid sid req s).2 = s ∨
    ∃ p, (registerController na ns cid sid req s).2 =
        { s with controllers := mapSet s.controllers cid ⟨sid, p⟩ } ∧
      ((validSlot req = some p ∧ slotTakenBy s.controllers sid p cid = false) ∨
       (validSlot req = none ∧ ∃ c, mapGet s.controllers cid = some c ∧
          c.screenId = sid ∧ p = c.playerNum) ∨
       (validSlot req = none ∧ p = getNextPlayerNumber s.controllers sid)) := by
  unfold registerController
  by_cases hb1 : (cid = "" ∨ sid = "")
  · rw [if_pos hb1]
    left
    rfl
  · rw [if_neg hb1]
    by_cases hb2 : (sid ∉ s.screens ∧ ¬ (na = true ∧ ns ≠ NState.idle))
    · rw [if_pos hb2]
      left
      rfl
    · rw [if_neg hb2]
      cases hv : validSlot req with
      | some n =>
        dsimp only
        by_cases ht : slotTakenBy s.controllers sid n cid = true
        · rw [if_pos ht]
          left
          rfl
        · rw [if_neg ht]
          right
          exact ⟨n, rfl, Or.inl ⟨rfl, by simpa using ht⟩⟩
      | none =>
        dsimp only
        cases hg : mapGet s.controllers cid with
        | some c =>
          dsimp only
          by_cases hcs : c.screenId = sid
          · right
            refine ⟨c.playerNum, ?_, Or.inr (Or.inl ⟨rfl, c, rfl, hcs, rfl⟩)⟩
            rw [if_pos hcs]
          · right
            refine ⟨getNextPlayerNumber s.controllers sid, ?_,
              Or.inr (Or.inr ⟨rfl, rfl⟩)⟩
            rw [if_neg hcs]
        | none =>
          right
          exact ⟨getNextPlayerNumber s.controllers sid, rfl,
            Or.inr (Or.inr ⟨rfl, rfl⟩)⟩

/-! ## The registry invariant is preserved by every operation -/

theorem registryInv_regCtrl (na : Bool) (ns : NState) (cid sid : String) (req : ReqSlot)
    {s : SrvState} (h : RegistryInv s) :
    RegistryInv (registerController na ns cid sid req s).2 := by
  rcases registerController_state_cases na ns cid sid req s with heq | ⟨p, heq, hcase⟩
  · rw [heq]
    exact h
  · rw [heq]
    obtain ⟨hnd, hcol⟩ := h
    refine ⟨keysNodup_mapSet cid ⟨sid, p⟩ hnd, ?_⟩
    have hcore : ∀ k2 c2, mapGet s.controllers k2 = some c2 → ¬ k2 = cid →
        c2.screenId = sid → c2.playerNum = p → 4 ≤ p := by
      intro k2 c2 h2 hk2 hs2 hp2
      rcases hcase with ⟨hv, hnotaken⟩ | ⟨hv, c, hgc, hcs, hpc⟩ | ⟨hv, hpauto⟩
      · exfalso
        have htaken : slotTakenBy s.controllers sid p cid = true :=
          (slotTakenBy_iff _ _ _ _).mpr ⟨(k2, c2), mapGet_eq_some_mem h2, hs2, hp2, hk2⟩
        rw [htaken] at hnotaken
        cases hnotaken
      · have h4 : 4 ≤ c.playerNum :=
          hcol cid k2 c c2 hgc h2 (fun hh => hk2 hh.symm) (hcs.trans hs2.symm)
            (hpc.symm.trans hp2.symm)
        omega
      · rcases getNextPlayerNumber_spec s.controllers sid with
          ⟨hp0, hp4, hfree, hlow⟩ | ⟨hfull, hcard⟩
        · exfalso
          apply hfree
          rw [← hpauto]
          exact mem_usedSlots.mpr ⟨(k2, c2), mapGet_eq_some_mem h2, hs2, hp2⟩
        · have h4u : 4 ≤ ((usedSlots s.controllers sid).card : Int) := by
            exact_mod_cast four_le_card_of_full
              (hfull 0 (by norm_num) (by norm_num)) (hfull 1 (by norm_num) (by norm_num))
              (hfull 2 (by norm_num) (by norm_num)) (hfull 3 (by norm_num) (by norm_num))
          rw [hpauto, hcard]
          exact h4u
    intro k1 k2 c1 c2 h1 h2 hk hs hp
    simp only at h1 h2
    rw [mapGet_mapSet] at h1 h2
    by_cases hk1 : k1 = cid
    · rw [if_pos hk1] at h1
      have hk2 : ¬ k2 = cid := fun hh => hk (hk1.trans hh.symm)
      rw [if_neg hk2] at h2
      have hc1 : c1 = ⟨sid, p⟩ := by
        injection h1 with hh
        exact hh.symm
      subst hc1
      simp only at hs hp ⊢
      exact hcore k2 c2 h2 hk2 hs.symm hp.symm
    · rw [if_neg hk1] at h1
      by_cases hk2 : k2 = cid
      · rw [if_pos hk2] at h2
        have hc2 : c2 = ⟨sid, p⟩ := by
          injection h2 with hh
          exact hh.symm
        subst hc2
        simp only at hs hp
        have h4 := hcore k1 c1 h1 hk1 hs hp
        rw [hp]
        exact h4
      · rw [if_neg hk2] at h2
        exact hcol k1 k2 c1 c2 h1 h2 hk hs hp

theorem registryInv_step {s : SrvState} (op : Op) (h : RegistryInv s) :
    RegistryInv (step s op) := by
  cases op with
  | regScreen sid =>
    simp only [step]
    unfold registerScreen
    by_cases hb : sid = ""
    · rw [if_pos hb]
      exact h
    · rw [if_neg hb]
      exact h
  | regCtrl na ns cid sid req => exact registryInv_regCtrl na ns cid sid req h
  | closeCtrl cid =>
    simp only [step]
    unfold closeController
    cases hg : mapGet s.controllers cid with
    | none => exact h
    | some c =>
      obtain ⟨hnd, hcol⟩ := h
      refine ⟨keysNodup_mapDelete cid hnd, ?_⟩
      intro k1 k2 c1 c2 h1 h2 hk hs hp
      simp only at h1 h2
      rw [mapGet_mapDelete] at h1 h2
      by_cases hk1 : k1 = cid
      · rw [if_pos hk1] at h1
        cases h1
      · rw [if_neg hk1] at h1
        by_cases hk2 : k2 = cid
        · rw [if_pos hk2] at h2
          cases h2
        · rw [if_neg hk2] at h2
          exact hcol k1 k2 c1 c2 h1 h2 hk hs hp
  | closeScr sid => exact ⟨h.1, h.2⟩

theorem registryInv_run (ops : List Op) : RegistryInv (run ops) := by
  unfold run
  have hgen : ∀ (l : List Op) (s : SrvState), RegistryInv s → RegistryInv (l.foldl step s) := by
    intro l
    induction l with
    | nil => intro s hs; exact hs
    | cons op t ih =>
      intro s hs
      exact ih _ (registryInv_step op hs)
  refine hgen ops SrvState.empty ⟨List.nodup_nil, ?_⟩
  intro k1 k2 c1 c2 h1
  exact absurd h1 (fun hh => Option.noConfusion hh)

theorem registerController_pass_result (na : Bool) (ns : NState) (cid sid : String)
    (req : ReqSlot) (s : SrvState)
    (hcid : ¬ cid = "") (hsid : ¬ sid = "")
    (hscr : sid ∈ s.screens ∨ (na = true ∧ ns ≠ .idle)) :
    (∃ n, validSlot req = some n ∧ slotTakenBy s.controllers sid n cid = true ∧
       registerController na ns cid sid req s = (.slotTaken (n + 1), s)) ∨
    (∃ p, (registerController na ns cid sid req s).1 = .registered p) := by
  rw [registerController_guard_pass na ns cid sid req s hcid hsid hscr]
  cases hv : validSlot req with
  | some n =>
    dsimp only
    by_cases ht : slotTakenBy s.controllers sid n cid = true
    · rw [if_pos ht]
      exact Or.inl ⟨n, rfl, ht, rfl⟩
    · rw [if_neg ht]
      exact Or.inr ⟨n, rfl⟩
  | none =>
    dsimp only
    exact Or.inr ⟨_, rfl⟩

/-! ## Claim theorems: session registry and router -/

/-- C3 (amended): after any sequence of registry operations, two distinct live
controllers of the same screen never share a `playerNum` in the range 0..3 —
any shared value is an overflow slot, at least 4.  (The claim's unqualified
slot uniqueness fails on overflow assignments; see the counterexample.) -/
theorem playerNum_unique_below_four (ops : List Op) (k1 k2 : String)
    (c1 c2 : CtrlSession)
    (h1 : mapGet (run ops).controllers k1 = some c1)
    (h2 : mapGet (run ops).controllers k2 = some c2)
    (hk : k1 ≠ k2) (hs : c1.screenId = c2.screenId)
    (hp : c1.playerNum = c2.playerNum) :
    4 ≤ c1.playerNum :=
  (registryInv_run ops).2 k1 k2 c1 c2 h1 h2 hk hs hp

/-- C3 witness: in the overflow-collision run, C6 and C7 are distinct live
controllers of screen S sharing playerNum 5, and the theorem yields 4 ≤ 5. -/
theorem playerNum_unique_below_four_witness :
    mapGet (run collisionOps).controllers "C6" = some ⟨"S", 5⟩ ∧
    mapGet (run collisionOps).controllers "C7" = some ⟨"S", 5⟩ ∧
    4 ≤ (⟨"S", 5⟩ : CtrlSession).playerNum := by
  have h1 : mapGet (run collisionOps).controllers "C6" = some ⟨"S", 5⟩ := by decide
  have h2 : mapGet (run collisionOps).controllers "C7" = some ⟨"S", 5⟩ := by decide
  exact ⟨h1, h2, playerNum_unique_below_four collisionOps "C6" "C7" ⟨"S", 5⟩ ⟨"S", 5⟩
    h1 h2 (by decide) rfl rfl⟩

/-- C3 counterexample: after filling slots 0..3, taking overflow slots 4 and
5, and disconnecting the slot-4 controller, a further auto-registration is
assigned 5 again — the distinct live controllers C6 and C7 of screen S both
hold playerNum 5, refuting unqualified slot uniqueness. -/
theorem playerNum_unique_ce :
    mapGet (run collisionOps).controllers "C6" = some ⟨"S", 5⟩ ∧
    mapGet (run collisionOps).controllers "C7" = some ⟨"S", 5⟩ ∧
    ("C6" : String) ≠ "C7" :=
  ⟨by decide, by decide, by decide⟩

/-- C4: with both ids present and no live screen for `screenId`, the
registration is answered ScreenNotFound exactly when native mode is
unavailable or the orchestrator is idle; when the orchestrator is non-idle
(and the request carries no conflicting valid slot), the registration
succeeds without a live screen. -/
theorem screenNotFound_iff_native_idle (na : Bool) (ns : NState) (cid sid : String)
    (req : ReqSlot) (s : SrvState)
    (hcid : cid ≠ "") (hsid : sid ≠ "") (hnolive : sid ∉ s.screens) :
    ((registerController na ns cid sid req s).1 = .screenNotFound ↔
      ¬ (na = true ∧ ns ≠ .idle)) ∧
    (na = true → ns ≠ .idle →
      (∀ n, validSlot req = some n → slotTakenBy s.controllers sid n cid = false) →
      ∃ p, (registerController na ns cid sid req s).1 = .registered p) := by
  refine ⟨⟨?_, ?_⟩, ?_⟩
  · intro hres hrun
    rcases registerController_pass_result na ns cid sid req s hcid hsid (Or.inr hrun) with
      ⟨n, _, _, hr⟩ | ⟨p, hr⟩
    · rw [hr] at hres
      cases hres
    · rw [hr] at hres
      cases hres
  · intro hna
    unfold registerController
    rw [if_neg (by rintro (h | h); exacts [hcid h, hsid h]), if_pos ⟨hnolive, hna⟩]
  · intro h1 h2 hnoc
    rw [registerController_guard_pass na ns cid sid req s hcid hsid (Or.inr ⟨h1, h2⟩)]
    cases hv : validSlot req with
    | some n =>
      dsimp only
      rw [if_neg (by simp [hnoc n hv])]
      exact ⟨n, rfl⟩
    | none =>
      dsimp only
      exact ⟨_, rfl⟩

/-- C4 witness: the orchestrator is `running` and native mode is available, so
registering C1 against the dead screen S9 is not answered ScreenNotFound, and
with no requested slot it succeeds. -/
theorem screenNotFound_iff_native_idle_witness :
    ((registerController true .running "C1" "S9" .absent SrvState.empty).1 =
        .screenNotFound ↔ ¬ ((true : Bool) = true ∧ (NState.running ≠ NState.idle))) ∧
    ((true : Bool) = true → NState.running ≠ NState.idle →
      (∀ n, validSlot .absent = some n →
        slotTakenBy SrvState.empty.controllers "S9" n "C1" = false) →
      ∃ p, (registerController true .running "C1" "S9" .absent SrvState.empty).1 =
        .registered p) :=
  screenNotFound_iff_native_idle true .running "C1" "S9" .absent SrvState.empty
    (by decide) (by decide) (by decide)

/-- C5: a requested slot in 0..3 held by a different controller id on the same
screen yields a SlotTaken error whose report carries the slot 1-indexed
(`n + 1`) and leaves the registry unchanged; when the slot is free or held by
the same controller id, no SlotTaken error is produced. -/
theorem requested_slot_conflict (na : Bool) (ns : NState) (cid sid : String) (n : Int)
    (s : SrvState) (hcid : cid ≠ "") (hsid : sid ≠ "")
    (hscr : sid ∈ s.screens ∨ (na = true ∧ ns ≠ .idle))
    (h0 : 0 ≤ n) (h4 : n < 4) :
    ((∃ e, e ∈ s.controllers ∧ (e : String × CtrlSession).2.screenId = sid ∧
        e.2.playerNum = n ∧ e.1 ≠ cid) →
      registerController na ns cid sid (.num n) s = (.slotTaken (n + 1), s)) ∧
    ((¬ ∃ e, e ∈ s.controllers ∧ (e : String × CtrlSession).2.screenId = sid ∧
        e.2.playerNum = n ∧ e.1 ≠ cid) →
      ∀ rp, (registerController na ns cid sid (.num n) s).1 ≠ .slotTaken rp) := by
  have hv : validSlot (.num n) = some n := by simp [validSlot, h0, h4]
  constructor
  · intro hex
    have ht : slotTakenBy s.controllers sid n cid = true := (slotTakenBy_iff _ _ _ _).mpr hex
    rw [registerController_guard_pass na ns cid sid _ s hcid hsid hscr, hv]
    dsimp only
    rw [if_pos ht]
  · intro hnex rp
    have ht : ¬ slotTakenBy s.controllers sid n cid = true := by
      intro hb
      exact hnex ((slotTakenBy_iff _ _ _ _).mp hb)
    rw [registerController_guard_pass na ns cid sid _ s hcid hsid hscr, hv]
    dsimp only
    rw [if_neg ht]
    intro hcon
    cases hcon

/-- C5 witness: with C1 live at slot 0 on S1, controller C2 requesting slot 0
is rejected with SlotTaken reporting requestedPlayer 1, and the registry is
unchanged. -/
theorem requested_slot_conflict_witness :
    registerController false .idle "C2" "S1" (.num 0) oneCtrlSt =
      (.slotTaken 1, oneCtrlSt) := by
  have h := requested_slot_conflict false .idle "C2" "S1" 0 oneCtrlSt (by decide) (by decide)
    (Or.inl (by decide)) (by decide) (by decide)
  simpa using h.1 ⟨("C1", ⟨"S1", 0⟩), by decide, by decide, by decide, by decide⟩

/-- C6: without a valid requested slot, registration succeeds and assigns the
previous slot when the same controller id is still registered on the same
screen; otherwise the lowest unused integer in 0..3; otherwise (all four
taken) the size of the used-slot set, accepted as an overflow value. -/
theorem register_auto_assignment (na : Bool) (ns : NState) (cid sid : String)
    (req : ReqSlot) (s : SrvState)
    (hcid : cid ≠ "") (hsid : sid ≠ "")
    (hscr : sid ∈ s.screens ∨ (na = true ∧ ns ≠ .idle))
    (hreq : validSlot req = none) :
    ∃ p, (registerController na ns cid sid req s).1 = .registered p ∧
      ((∃ c, mapGet s.controllers cid = some c ∧ c.screenId = sid ∧ p = c.playerNum) ∨
       ((∀ c, mapGet s.controllers cid = some c → c.screenId ≠ sid) ∧
         IsAutoAssign s.controllers sid p)) := by
  rw [registerController_guard_pass na ns cid sid req s hcid hsid hscr, hreq]
  dsimp only
  cases hg : mapGet s.controllers cid with
  | some c =>
    dsimp only
    by_cases hcs : c.screenId = sid
    · rw [if_pos hcs]
      exact ⟨c.playerNum, rfl, Or.inl ⟨c, rfl, hcs, rfl⟩⟩
    · rw [if_neg hcs]
      refine ⟨getNextPlayerNumber s.controllers sid, rfl,
        Or.inr ⟨?_, getNextPlayerNumber_spec _ _⟩⟩
      intro c' hc'
      injection hc' with hh
      rw [← hh]
      exact hcs
  | none =>
    refine ⟨getNextPlayerNumber s.controllers sid, rfl,
      Or.inr ⟨?_, getNextPlayerNumber_spec _ _⟩⟩
    intro c' hc'
    cases hc'

/-- C6 witness: the first controller on a fresh screen gets playerNum 0
(concretely checked), and the theorem applies to that scenario. -/
theorem register_auto_assignment_witness :
    (registerController false .idle "C1" "S1" .absent (run [.regScreen "S1"])).1 =
      .registered 0 ∧
    ∃ p, (registerController false .idle "C1" "S1" .absent (run [.regScreen "S1"])).1 =
        .registered p ∧
      ((∃ c, mapGet (run [.regScreen "S1"]).controllers "C1" = some c ∧
          c.screenId = "S1" ∧ p = c.playerNum) ∨
       ((∀ c, mapGet (run [.regScreen "S1"]).controllers "C1" = some c →
          c.screenId ≠ "S1") ∧
         IsAutoAssign (run [.regScreen "S1"]).controllers "S1" p)) :=
  ⟨by decide,
   register_auto_assignment false .idle "C1" "S1" .absent (run [.regScreen "S1"])
     (by decide) (by decide) (Or.inl (by decide)) (by decide)⟩

/-- C7 (amended): a controller that disconnects and re-registers against the
same screen with no requested slot receives its old playerNum back provided
no other live controller holds that slot AND, additionally, every lower slot
is held by a live controller at re-registration time (the code reassigns the
lowest free slot in 0..3 rather than remembering the old one; the unqualified
claim fails, see the counterexample). -/
theorem slot_reuse_on_reconnect (na : Bool) (ns : NState) (cid sid : String)
    (s : SrvState) (c : CtrlSession)
    (hold : mapGet s.controllers cid = some c) (_hsidc : c.screenId = sid)
    (hp0 : 0 ≤ c.playerNum) (hp4 : c.playerNum < 4)
    (hcid : cid ≠ "") (hsid : sid ≠ "")
    (hscr : sid ∈ (closeController cid s).screens ∨ (na = true ∧ ns ≠ .idle))
    (hfree : c.playerNum ∉ usedSlots (closeController cid s).controllers sid)
    (hlow : ∀ q : Int, 0 ≤ q → q < c.playerNum →
      q ∈ usedSlots (closeController cid s).controllers sid) :
    (registerController na ns cid sid .absent (closeController cid s)).1 =
      .registered c.playerNum := by
  have hgone : mapGet (closeController cid s).controllers cid = none := by
    unfold closeController
    rw [hold]
    dsimp only
    rw [mapGet_mapDelete, if_pos rfl]
  rw [registerController_guard_pass na ns cid sid .absent _ hcid hsid hscr]
  dsimp only [validSlot]
  rw [hgone]
  dsimp only
  rw [getNextPlayerNumber_eq_of _ sid c.playerNum hp0 hp4 hfree hlow]

/-- C7 witness: C2 held slot 1 on S1 (with C1 on slot 0); after C2 disconnects
and re-registers with no requested slot — slot 0 still being held — it gets
playerNum 1 back. -/
theorem slot_reuse_on_reconnect_witness :
    (registerController false .idle "C2" "S1" .absent (closeController "C2" twoCtrlSt)).1 =
      .registered 1 := by
  refine slot_reuse_on_reconnect false .idle "C2" "S1" twoCtrlSt ⟨"S1", 1⟩ (by decide) rfl
    (by decide) (by decide) (by decide) (by decide) (Or.inl (by decide)) (by decide) ?_
  intro q h0 h1
  have h1q : q < 1 := h1
  have hq : q = 0 := by omega
  subst hq
  decide

/-- C7 counterexample: C1 registers on S1 at requested slot 2 and disconnects,
leaving no controllers at all (so no one claims its old slot); on
re-registration with no requested slot it is assigned playerNum 0, not 2. -/
theorem slot_reuse_ce :
    mapGet (run [.regScreen "S1", .regCtrl false .idle "C1" "S1" (.num 2)]).controllers
        "C1" = some ⟨"S1", 2⟩ ∧
    reconnectSt.controllers = [] ∧
    (registerController false .idle "C1" "S1" .absent reconnectSt).1 = .registered 0 ∧
    (0 : Int) ≠ 2 :=
  ⟨by decide, by decide, by decide, by decide⟩

/-- C8 (amended): the webrtc-answer branch forwards to whatever controller id
the message names, regardless of that controller's screen and without
inspecting the payload; when the id is unknown the message is silently
dropped with no reply to anyone, the sender included. -/
theorem webrtc_answer_forwarding (s : SrvState) (senderId target : String)
    (a b : AnswerPayload) :
    (mapGet s.controllers target = none →
      handleWebrtcAnswer s senderId target a = []) ∧
    (∀ c, mapGet s.controllers target = some c →
      handleWebrtcAnswer s senderId target a =
        [(.toController target, .webrtcAnswer a)]) ∧
    ((handleWebrtcAnswer s senderId target a).length =
      (handleWebrtcAnswer s senderId target b).length) := by
  unfold handleWebrtcAnswer
  cases hg : mapGet s.controllers target with
  | none =>
    dsimp only
    exact ⟨fun _ => rfl, fun c hc => Option.noConfusion hc, rfl⟩
  | some c =>
    dsimp only
    exact ⟨fun hh => Option.noConfusion hh, fun c' _ => rfl, rfl⟩

/-- C8 witness: with C1 registered on S2, a webrtc-answer from S1 naming C1 is
forwarded (hypothesis discharged concretely), and one naming an unknown id
produces no output. -/
theorem webrtc_answer_forwarding_witness :
    handleWebrtcAnswer twoScreenSt "S1" "C1" .malformed =
      [(.toController "C1", .webrtcAnswer .malformed)] ∧
    handleWebrtcAnswer twoScreenSt "S1" "C9" .malformed = [] :=
  ⟨(webrtc_answer_forwarding twoScreenSt "S1" "C1" .malformed .malformed).2.1
      ⟨"S2", 0⟩ (by decide),
   (webrtc_answer_forwarding twoScreenSt "S1" "C9" .malformed .malformed).1 (by decide)⟩

/-- C8 counterexample: screen S1 sends a webrtc-answer naming C1, which
belongs to screen S2; the malformed payload is forwarded to C1 anyway, and an
answer naming an unknown controller is dropped with no reply to the sender. -/
theorem webrtc_answer_ce :
    (mapGet twoScreenSt.controllers "C1").map CtrlSession.screenId = some "S2" ∧
    ("S2" : String) ≠ "S1" ∧
    handleWebrtcAnswer twoScreenSt "S1" "C1" .malformed =
      [(.toController "C1", .webrtcAnswer .malformed)] ∧
    handleWebrtcAnswer twoScreenSt "S1" "missing" (.sdp "answer" "v=0") = [] :=
  ⟨by decide, by decide, by decide, by decide⟩

/-- C10: a present but invalid requestedPlayerNum — non-numeric, negative, or
at least 4 — is ignored entirely: the request does not fail on its account,
no conflict check is run, and the outcome is identical to a request with no
slot field. -/
theorem invalid_requested_slot_ignored (na : Bool) (ns : NState) (cid sid : String)
    (req : ReqSlot) (s : SrvState)
    (_hpresent : req ≠ .absent) (hinvalid : validSlot req = none) :
    registerController na ns cid sid req s =
      registerController na ns cid sid .absent s := by
  unfold registerController
  rw [hinvalid]
  rfl

/-- C10 witness: requesting out-of-range slot 7 behaves exactly like
requesting no slot, and the registration auto-assigns slot 1 (slot 0 being
held by C1). -/
theorem invalid_requested_slot_ignored_witness :
    registerController false .idle "C2" "S1" (.num 7) oneCtrlSt =
      registerController false .idle "C2" "S1" .absent oneCtrlSt ∧
    (registerController false .idle "C2" "S1" (.num 7) oneCtrlSt).1 = .registered 1 :=
  ⟨invalid_requested_slot_ignored false .idle "C2" "S1" (.num 7) oneCtrlSt
     (by decide) (by decide),
   by decide⟩

/-! ## Claim theorems: native orchestrator -/

theorem extractRom_fields (env : LaunchEnv) (st : NativeSt) (system zp : String) :
    ((extractRom env st system zp).1.state = st.state ∧
     (extractRom env st system zp).1.currentCore = st.currentCore ∧
     (extractRom env st system zp).1.currentRom = st.currentRom ∧
     (extractRom env st system zp).1.cageProcess = st.cageProcess ∧
     (extractRom env st system zp).1.exitCallback = st.exitCallback) ∧
    (extractRom env st system zp).1.extractedDir =
      (if env.unzipOk = true then
        some (EXTRACT_DIR ++ "/" ++ system ++ "-" ++ toString env.now)
       else none) := by
  unfold extractRom cleanupExtraction
  by_cases hz : env.unzipOk = true
  · rw [if_neg (by simp [hz])]
    dsimp only
    rw [if_pos hz]
    cases (CONTENT_EXTENSIONS system).findSome?
        (fun ext => env.filesInDir.find? (fun f => strEndsWith (strToLower f) ext)) with
    | some f => exact ⟨⟨rfl, rfl, rfl, rfl, rfl⟩, rfl⟩
    | none =>
      cases env.filesInDir.find? (fun f => !env.isDir f) with
      | some f => exact ⟨⟨rfl, rfl, rfl, rfl, rfl⟩, rfl⟩
      | none => exact ⟨⟨rfl, rfl, rfl, rfl, rfl⟩, rfl⟩
  · rw [if_pos (by simp [hz]), if_neg hz]
    exact ⟨⟨rfl, rfl, rfl, rfl, rfl⟩, rfl⟩


theorem launchNative_outcomes (env : LaunchEnv) (system romPath : String) (cb : Bool)
    (st : NativeSt) (hidle : st.state = .idle) :
    ((launchNative env system romPath cb st).1 = st ∧
      ((launchNative env system romPath cb st).2 = some .coreNotFound ∨
       (launchNative env system romPath cb st).2 = some .romNotFound)) ∨
    ((launchNative env system romPath cb st).2 = some .extractionFailed ∧
      (launchNative env system romPath cb st).1.state = .idle ∧
      (launchNative env system romPath cb st).1.currentCore = none ∧
      (launchNative env system romPath cb st).1.currentRom = none ∧
      ((launchNative env system romPath cb st).1.extractedDir = none ↔
        env.unzipOk = false)) ∨
    ((launchNative env system romPath cb st).2 = some .kioskStopFailed ∧
      (launchNative env system romPath cb st).1.state = .idle ∧
      (launchNative env system romPath cb st).1.currentCore = none ∧
      (launchNative env system romPath cb st).1.currentRom = none) ∨
    ((launchNative env system romPath cb st).2 = some .spawnFailed ∧
      (launchNative env system romPath cb st).1.state = .idle ∧
      (launchNative env system romPath cb st).1.currentCore = none ∧
      (launchNative env system romPath cb st).1.currentRom = none ∧
      (launchNative env system romPath cb st).1.extractedDir = none) ∨
    (launchNative env system romPath cb st).2 = none := by
  unfold launchNative
  rw [if_neg (by simp [hidle])]
  cases hcp : resolveCorePath system with
  | none => exact Or.inl ⟨rfl, Or.inl rfl⟩
  | some corePath =>
    dsimp only
    by_cases hfc : env.fileExists corePath = true
    · rw [if_neg (by simp [hfc])]
      by_cases hfr : env.fileExists romPath = true
      · rw [if_neg (by simp [hfr])]
        by_cases hne : (NEEDS_EXTRACTION.contains system &&
            strEndsWith (strToLower romPath) ".zip") = true
        · rw [if_pos hne]
          obtain ⟨⟨hst, hco, hro, hca, hcb⟩, hdir⟩ := extractRom_fields env
            { st with state := .launching, currentCore := some system,
                      currentRom := some romPath, exitCallback := cb } system romPath
          cases hx : (extractRom env
              { st with state := .launching, currentCore := some system,
                        currentRom := some romPath, exitCallback := cb }
              system romPath).2 with
          | none =>
            refine Or.inr (Or.inl ⟨rfl, rfl, rfl, rfl, ?_⟩)
            dsimp only
            rw [hdir]
            by_cases hz : env.unzipOk = true
            · rw [if_pos hz]
              simp [hz]
            · rw [if_neg hz]
              simp [Bool.not_eq_true] at hz
              simp [hz]
          | some actual =>
            dsimp only
            by_cases hk : env.stopKioskOk = true
            · rw [if_neg (by simp [hk])]
              by_cases hsp : env.spawnOk = true
              · rw [if_pos hsp]
                exact Or.inr (Or.inr (Or.inr (Or.inr rfl)))
              · rw [if_neg hsp]
                exact Or.inr (Or.inr (Or.inr (Or.inl ⟨rfl, rfl, rfl, rfl, rfl⟩)))
            · rw [if_pos (by simp [hk])]
              exact Or.inr (Or.inr (Or.inl ⟨rfl, rfl, rfl, rfl⟩))
        · rw [if_neg hne]
          dsimp only
          by_cases hk : env.stopKioskOk = true
          · rw [if_neg (by simp [hk])]
            by_cases hsp : env.spawnOk = true
            · rw [if_pos hsp]
              exact Or.inr (Or.inr (Or.inr (Or.inr rfl)))
            · rw [if_neg hsp]
              exact Or.inr (Or.inr (Or.inr (Or.inl ⟨rfl, rfl, rfl, rfl, rfl⟩)))
          · rw [if_pos (by simp [hk])]
            exact Or.inr (Or.inr (Or.inl ⟨rfl, rfl, rfl, rfl⟩))
      · rw [if_pos (by simp [hfr])]
        exact Or.inl ⟨rfl, Or.inr rfl⟩
    · rw [if_pos (by simp [hfc])]
      exact Or.inl ⟨rfl, Or.inl rfl⟩

/-- C1: launch is single-flight.  While the orchestrator is not idle, a launch
call returns the InvalidState failure and leaves the whole orchestrator state
— including the recorded core and rom of the earlier launch — unchanged;
nothing is queued. -/
theorem launch_single_flight (env : LaunchEnv) (system romPath : String) (cb : Bool)
    (st : NativeSt) (h : st.state ≠ .idle) :
    launchNative env system romPath cb st = (st, some (.invalidState st.state)) := by
  unfold launchNative
  rw [if_pos h]

/-- C1 witness: after a successful launch of snes content the state is
`running` with core and rom recorded; a second launch for a different system
fails with InvalidState and the recorded core/rom still reflect the first
call. -/
theorem launch_single_flight_witness :
    stAfterLaunch.state ≠ NState.idle ∧
    stAfterLaunch.currentCore = some "snes" ∧
    stAfterLaunch.currentRom = some "/roms/a.sfc" ∧
    launchNative envGood "n64" "/roms/b.z64" true stAfterLaunch =
      (stAfterLaunch, some (.invalidState stAfterLaunch.state)) :=
  ⟨by decide, by decide, by decide,
   launch_single_flight envGood "n64" "/roms/b.z64" true stAfterLaunch (by decide)⟩

/-- C2 (amended): every launch failure at the extraction, kiosk-stop, or spawn
step — and every exit or spawn-error event — leaves the orchestrator idle
with core and rom cleared.  The scratch directory is removed on unzip
failure, spawn failure, and in the exit/error handlers, but it is NOT removed
when the extracted archive yields no usable content file, nor on a kiosk-stop
failure after an extraction (see the counterexample). -/
theorem cleanup_on_failure :
    (∀ (env : LaunchEnv) (system romPath : String) (cb : Bool) (st : NativeSt),
      st.state = .idle →
      ∀ e, (launchNative env system romPath cb st).2 = some e →
        e ≠ .coreNotFound → e ≠ .romNotFound →
        (launchNative env system romPath cb st).1.state = .idle ∧
        (launchNative env system romPath cb st).1.currentCore = none ∧
        (launchNative env system romPath cb st).1.currentRom = none) ∧
    (∀ (env : LaunchEnv) (system romPath : String) (cb : Bool) (st : NativeSt),
      st.state = .idle →
      (launchNative env system romPath cb st).2 = some .spawnFailed →
      (launchNative env system romPath cb st).1.extractedDir = none) ∧
    (∀ (env : LaunchEnv) (system romPath : String) (cb : Bool) (st : NativeSt),
      st.state = .idle → env.unzipOk = false →
      (launchNative env system romPath cb st).2 = some .extractionFailed →
      (launchNative env system romPath cb st).1.extractedDir = none) ∧
    (∀ (st : NativeSt) (code : Option Int) (signal : Option String),
      (onCageExit st code signal).1.state = .idle ∧
      (onCageExit st code signal).1.currentCore = none ∧
      (onCageExit st code signal).1.currentRom = none ∧
      (onCageExit st code signal).1.extractedDir = none) ∧
    (∀ st : NativeSt, (onCageError st).1.state = .idle ∧
      (onCageError st).1.currentCore = none ∧
      (onCageError st).1.currentRom = none ∧
      (onCageError st).1.extractedDir = none) := by
  refine ⟨?_, ?_, ?_, ?_, ?_⟩
  · intro env system romPath cb st hidle e he hc hr
    rcases launchNative_outcomes env system romPath cb st hidle with
      ⟨_, h2 | h2⟩ | ⟨h2, hrest⟩ | ⟨h2, hrest⟩ | ⟨h2, hrest⟩ | h2
    · rw [he] at h2
      injection h2 with hh
      exact absurd hh hc
    · rw [he] at h2
      injection h2 with hh
      exact absurd hh hr
    · exact ⟨hrest.1, hrest.2.1, hrest.2.2.1⟩
    · exact hrest
    · exact ⟨hrest.1, hrest.2.1, hrest.2.2.1⟩
    · rw [he] at h2
      cases h2
  · intro env system romPath cb st hidle he
    rcases launchNative_outcomes env system romPath cb st hidle with
      ⟨_, h2 | h2⟩ | ⟨h2, _⟩ | ⟨h2, _⟩ | ⟨_, _, _, _, hdir⟩ | h2
    · rw [he] at h2
      cases h2
    · rw [he] at h2
      cases h2
    · rw [he] at h2
      injection h2 with hh
      cases hh
    · rw [he] at h2
      injection h2 with hh
      cases hh
    · exact hdir
    · rw [he] at h2
      cases h2
  · intro env system romPath cb st hidle hz he
    rcases launchNative_outcomes env system romPath cb st hidle with
      ⟨_, h2 | h2⟩ | ⟨_, _, _, _, hdir⟩ | ⟨h2, _⟩ | ⟨h2, _⟩ | h2
    · rw [he] at h2
      cases h2
    · rw [he] at h2
      cases h2
    · exact hdir.mpr hz
    · rw [he] at h2
      injection h2 with hh
      cases hh
    · rw [he] at h2
      injection h2 with hh
      cases hh
    · rw [he] at h2
      cases h2
  · intro st code signal
    unfold onCageExit cleanupExtraction
    by_cases hcb : st.exitCallback = true
    · rw [if_pos hcb]
      exact ⟨rfl, rfl, rfl, rfl⟩
    · rw [if_neg hcb]
      exact ⟨rfl, rfl, rfl, rfl⟩
  · intro st
    exact ⟨rfl, rfl, rfl, rfl⟩

/-- C2 witness: concrete instances of the amended claim — a no-content
extraction failure resets state, a spawn failure leaves no scratch directory,
an unzip-command failure leaves no scratch directory, and the exit and error
handlers fully reset the state. -/
theorem cleanup_on_failure_witness :
    (launchNative envNoContent "psx" "/roms/game.zip" false NativeSt.init).1.state =
      .idle ∧
    (launchNative envSpawnFail "snes" "/roms/a.sfc" true NativeSt.init).1.extractedDir =
      none ∧
    (launchNative envUnzipFail "psx" "/roms/game.zip" false NativeSt.init).1.extractedDir =
      none ∧
    (onCageExit stAfterLaunch (some 0) none).1.extractedDir = none ∧
    (onCageError stAfterLaunch).1.state = .idle :=
  ⟨(cleanup_on_failure.1 envNoContent "psx" "/roms/game.zip" false NativeSt.init rfl
      .extractionFailed (by decide) (by decide) (by decide)).1,
   cleanup_on_failure.2.1 envSpawnFail "snes" "/roms/a.sfc" true NativeSt.init rfl
     (by decide),
   cleanup_on_failure.2.2.1 envUnzipFail "psx" "/roms/game.zip" false NativeSt.init rfl
     rfl (by decide),
   (cleanup_on_failure.2.2.2.1 stAfterLaunch (some 0) none).2.2.2,
   (cleanup_on_failure.2.2.2.2 stAfterLaunch).1⟩

/-- C2 counterexample: the claim says the scratch directory is removed on
every failing step; but when unzip succeeds and the archive holds no usable
content file, the launch fails with ExtractionFailed, resets state/core/rom,
and leaves `extractedDir` pointing at the surviving scratch directory. -/
theorem cleanup_scratch_ce :
    (launchNative envNoContent "psx" "/roms/game.zip" false NativeSt.init).2 =
      some .extractionFailed ∧
    (launchNative envNoContent "psx" "/roms/game.zip" false NativeSt.init).1.state =
      .idle ∧
    (launchNative envNoContent "psx" "/roms/game.zip" false NativeSt.init).1.extractedDir ≠
      none :=
  ⟨by decide, by decide, by decide⟩

/-- C9 (amended): the exit handler invokes the recorded callback exactly once
with the exit code/signal and clears it (a second exit event would notify
nothing); but the spawn-error handler delivers no notification and does not
clear the recorded callback. -/
theorem exit_callback_semantics :
    (∀ (st : NativeSt) (code : Option Int) (signal : Option String),
      st.exitCallback = true →
      (onCageExit st code signal).2 = some (code, signal) ∧
      (onCageExit st code signal).1.exitCallback = false) ∧
    (∀ (st : NativeSt) (code : Option Int) (signal : Option String),
      st.exitCallback = false → (onCageExit st code signal).2 = none) ∧
    (∀ (st : NativeSt) (code : Option Int) (signal : Option String)
      (code2 : Option Int) (signal2 : Option String),
      (onCageExit (onCageExit st code signal).1 code2 signal2).2 = none) ∧
    (∀ st : NativeSt, (onCageError st).2 = none ∧
      (onCageError st).1.exitCallback = st.exitCallback) := by
  refine ⟨?_, ?_, ?_, ?_⟩
  · intro st code signal hcb
    unfold onCageExit
    rw [if_pos hcb]
    exact ⟨rfl, rfl⟩
  · intro st code signal hcb
    unfold onCageExit
    rw [if_neg (by simp [hcb])]
  · intro st code signal code2 signal2
    have hcb2 : (onCageExit st code signal).1.exitCallback = false := by
      unfold onCageExit cleanupExtraction
      by_cases hcb : st.exitCallback = true
      · rw [if_pos hcb]
      · rw [if_neg hcb]
        dsimp only
        simpa using hcb
    generalize hst1 : (onCageExit st code signal).1 = st1 at hcb2
    unfold onCageExit
    rw [if_neg (by simp [hcb2])]
  · intro st
    exact ⟨rfl, rfl⟩

/-- C9 witness: after a launch recording a callback, a process exit delivers
the code/signal notification exactly once and clears the callback; a state
with no recorded callback is not notified. -/
theorem exit_callback_semantics_witness :
    (onCageExit stAfterLaunch (some 0) (some "SIGTERM")).2 =
      some (some 0, some "SIGTERM") ∧
    (onCageExit stAfterLaunch (some 0) (some "SIGTERM")).1.exitCallback = false ∧
    (onCageExit NativeSt.init (some 1) none).2 = none :=
  ⟨(exit_callback_semantics.1 stAfterLaunch (some 0) (some "SIGTERM") (by decide)).1,
   (exit_callback_semantics.1 stAfterLaunch (some 0) (some "SIGTERM") (by decide)).2,
   exit_callback_semantics.2.1 NativeSt.init (some 1) none (by decide)⟩

/-- C9 counterexample: with a callback recorded by a successful launch, the
spawn-error handler fires with no notification and leaves the callback
reference set; likewise the synchronous spawn-failure return leaves the
recorded callback in place — refuting "invoked exactly once, also on spawn
failure, and cleared afterward". -/
theorem exit_callback_ce :
    stAfterLaunch.exitCallback = true ∧
    (onCageError stAfterLaunch).2 = none ∧
    (onCageError stAfterLaunch).1.exitCallback = true ∧
    (launchNative envSpawnFail "snes" "/roms/a.sfc" true NativeSt.init).2 =
      some .spawnFailed ∧
    (launchNative envSpawnFail "snes" "/roms/a.sfc" true NativeSt.init).1.exitCallback =
      true :=
  ⟨by decide, by decide, by decide, by decide, by decide⟩

end RetroBox
